import Mathlib

/-!
Verification model of the process supervisor in `ballsdex/__main__.py`.

The module boots two concurrent workers (a Flask liveness thread and the
Discord client task on an asyncio loop), wires task-failure callbacks and a
loop exception handler, and funnels shutdown through `shutdown_handler`.

The embedding below is a shallow, executable model of that file:

* External collaborators (argparse, the settings loader, `BallsDexBot`,
  Flask, Tortoise) are modelled only at their boundary, as opaque effects.
* Effects performed by the supervisor are recorded in order in a `List Eff`.
* Time is abstract: `ShutdownEnv` carries how long `bot.close()` would take
  and how long cancelled tasks take to finish, and `asyncio.wait_for`
  becomes `min duration budget` together with a timed-out test.
* Python semantics that the file relies on are modelled explicitly and
  noted at the relevant branch: `sys.exit` raises `SystemExit`;
  `SystemExit`/`KeyboardInterrupt` raised inside an asyncio task are
  re-raised by the task machinery and abort `run_forever`; a `finally`
  clause runs during that unwinding; the interpreter joins non-daemon
  threads after the main thread exits, and `Thread(target=...)` is
  non-daemon by default.
-/

namespace BallsdexMain

/-- Severity levels of the `logging` calls appearing in the module. -/
inductive LogLvl
  | debug
  | info
  | error
  | critical
deriving DecidableEq, Repr

/-- Classes of values that can be raised by the bot task or delivered to the
loop exception handler: the three classes the module treats specially, and
any other `Exception` subclass identified by its name. -/
inductive ExcKind
  | systemExit
  | keyboardInterrupt
  | cancelledError
  | otherError (name : String)
deriving DecidableEq, Repr

/-- Outcome of the main bot task (`bot.start_bot()`): normal return or an
exception. -/
inductive TaskOutcome
  | normal
  | raises (e : ExcKind)
deriving DecidableEq, Repr

/-- Observable effects performed by `__main__.py`, in program order. -/
inductive Eff
  | printVersionE
  | writeDefaultSettingsE
  | printResetNoticeE
  | readSettingsE
  | updateSettingsE
  | printMissingTokenE
  | initLoggerE (debug : Bool) (rich : Bool)
  | printWelcomeE (botName : String)
  | startThread (daemon : Bool)
  | createBallsDexBotE
  | setExceptionHandlerE
  | createTask (name : String)
  | addDoneCallbackE
  | logE (lvl : LogLvl) (msg : String)
  | closeClient
  | cancelPass (tasks : List String)
  | exitCall (code : Nat)
  | installSigHandler (sig : String)
  | initTortoiseE
deriving DecidableEq, Repr

/-- The resolved settings fields that `main` reads. Python truthiness of
`settings.discord_token` is modelled as the string being nonempty. -/
structure Settings where
  discord_token : String
  bot_name : String
deriving DecidableEq, Repr

/-- The `CLIFlags` namespace of `__main__.py` (argparse itself is external,
so `main` is modelled from the parsed flags onward). -/
structure CLIFlags where
  version : Bool
  config_file : String
  reset_settings : Bool
  disable_rich : Bool
  disable_message_content : Bool
  disable_time_check : Bool
  skip_tree_sync : Bool
  debug : Bool
  dev : Bool
deriving DecidableEq, Repr

/-- The module-level `TORTOISE_ORM` dict: the connection string is read from
the environment into the configuration at import time. -/
structure TortoiseConfig where
  defaultConnection : Option String
  modelsModules : List String
deriving DecidableEq, Repr

/-- `TORTOISE_ORM`, parameterised by `os.environ.get("BALLSDEXBOT_DB_URL")`. -/
def TORTOISE_ORM (dbUrl : Option String) : TortoiseConfig :=
  { defaultConnection := dbUrl
    modelsModules := ["ballsdex.core.models"] }

/-- `init_tortoise`: logs and calls `Tortoise.init` (the latter recorded as
the `initTortoiseE` effect). Defined in the module but never called by it. -/
def init_tortoise (dbUrl : Option String) : List Eff :=
  [.logE .debug ("Initializing Tortoise ORM with DB: " ++ toString (repr dbUrl)),
   .initTortoiseE]

/-- Environment for a `shutdown_handler` invocation: how many abstract time
units `bot.close()` needs to complete, the pending tasks found by
`asyncio.all_tasks()` (minus the current task), and how long those tasks
need to finish after being cancelled. -/
structure ShutdownEnv where
  closeDuration : Nat
  pendingTasks : List String
  cancelDuration : Nat
deriving DecidableEq, Repr

/-- Result of one `shutdown_handler` invocation: its effect trace, the time
spent inside `wait_for(bot.close(), timeout=10)`, and the time spent inside
`wait_for(gather(*pending, ...), timeout=5)`. -/
structure ShutdownRun where
  effects : List Eff
  drainElapsed : Nat
  terminateElapsed : Nat
deriving DecidableEq, Repr

/-- `shutdown_handler(bot, signal_type=None)`. The `wait_for` on
`bot.close()` waits at most 10 units; whether or not it times out, the
`finally` block runs: every pending task is cancelled, the gathered tasks
are awaited for at most 5 units, a timeout there is logged via `log.error`,
and `sys.exit(0 if signal_type else 1)` is reached unconditionally (the
`sys.exit` in the `finally` clause also discards a pending
`TimeoutError` from the close wait, which is therefore never logged). -/
def shutdown_handler (env : ShutdownEnv) (signal_type : Option String) :
    ShutdownRun :=
  let infoLog : List Eff :=
    match signal_type with
    | some s => [.logE .info ("Received " ++ s ++ ", stopping bot...")]
    | none => []
  let cancelTimeoutLog : List Eff :=
    if 5 < env.cancelDuration then
      [.logE .error "Timeout while cancelling tasks."]
    else []
  { effects := infoLog ++ [.closeClient, .cancelPass env.pendingTasks]
      ++ cancelTimeoutLog
      ++ [.exitCall (if signal_type.isSome then 0 else 1)]
    drainElapsed := min env.closeDuration 10
    terminateElapsed := min env.cancelDuration 5 }

/-- A context dict handed to the loop exception handler. asyncio always
populates the `message` key, so it is modelled as present. -/
structure LoopContext where
  exception : Option ExcKind
  message : String
deriving DecidableEq, Repr

/-- `global_exception_handler(bot, loop, context)`: returns (swallows) when
the exception is a `KeyboardInterrupt` or `SystemExit`; otherwise logs the
message at critical severity. A missing exception (`context.get` returning
`None`) falls through to the log call. -/
def global_exception_handler (ctx : LoopContext) : List Eff :=
  match ctx.exception with
  | some .keyboardInterrupt => []
  | some .systemExit => []
  | _ => [.logE .critical ("Unhandled exception: " ++ ctx.message)]

/-- `bot_exception_handler(bot, bot_task)`: retrieves the task result;
`SystemExit`, `KeyboardInterrupt` and `CancelledError` are passed over, any
other `Exception` is logged critically and a `shutdown_handler` task is
created. -/
def bot_exception_handler (outcome : TaskOutcome) : List Eff :=
  match outcome with
  | .normal => []
  | .raises .systemExit => []
  | .raises .keyboardInterrupt => []
  | .raises .cancelledError => []
  | .raises (.otherError _) =>
      [.logE .critical "Main bot task crashed",
       .createTask "shutdown_handler"]

/-- The single run-level event driving a started supervisor: nothing ever
happens, an OS signal arrives while `run_forever` runs, or the bot task
completes with some outcome. -/
inductive RunCase
  | runsQuietly
  | sigint
  | sigterm
  | taskDone (outcome : TaskOutcome)
deriving DecidableEq, Repr

/-- How the run ends for the main thread: the loop keeps running forever,
the main thread unwinds with `SystemExit code` (from `sys.exit`), or the OS
kills the whole process because a signal had its default disposition. -/
inductive Fate
  | loopForever
  | mainThreadExit (code : Nat)
  | killedBySignal (sig : String)
deriving DecidableEq, Repr

/-- Result of a whole run of `main()`: the effect trace, the fate of the
main thread, and whether a non-daemon thread is still alive when the main
thread finishes. -/
structure RunResult where
  effects : List Eff
  fate : Fate
  nonDaemonThreadAlive : Bool
deriving DecidableEq, Repr

/-- Whether the process actually terminates: the interpreter joins every
non-daemon thread after the main thread exits, so a main-thread exit only
terminates the process when no non-daemon thread is still running; a
default-disposition signal kills the process outright. -/
def RunResult.processTerminates (r : RunResult) : Bool :=
  match r.fate with
  | .loopForever => false
  | .mainThreadExit _ => !r.nonDaemonThreadAlive
  | .killedBySignal _ => true

/-- Effects of `main()` from `read_settings` up to `run_forever`, once the
version / reset-settings / missing-token early exits have been passed:
logging is initialised, the welcome banner printed, the Flask thread
started (`Thread(target=run_flask)` has `daemon=None`, inherited from the
non-daemon main thread, hence `daemon := false`), the bot constructed, the
loop exception handler set, the bot task created and its done-callback
attached. No OS signal handler is ever installed. -/
def startupEffects (flags : CLIFlags) (settings : Settings) : List Eff :=
  [.readSettingsE, .updateSettingsE,
   .initLoggerE flags.debug (!flags.disable_rich),
   .printWelcomeE settings.bot_name,
   .startThread false,
   .createBallsDexBotE,
   .setExceptionHandlerE,
   .createTask "bot.start_bot",
   .addDoneCallbackE]

/-- `main()`, driven by one run-level event. Branch notes:

* `--version` and `--reset-settings` print and `sys.exit(0)` before any
  thread or task exists.
* A falsy `settings.discord_token` prints and `sys.exit(1)` before any
  thread or task exists.
* `sigint`: the default `SIGINT` handler raises `KeyboardInterrupt` in the
  main thread, `run_forever` aborts, and the `finally` clause runs
  `shutdown_handler(bot)` with `signal_type=None`, whose `sys.exit(1)`
  unwinds the main thread. No handler was installed for the signal.
* `sigterm`: no handler is installed and asyncio installs none, so the
  default disposition terminates the process immediately.
* bot task raising `SystemExit` or `KeyboardInterrupt`: the asyncio task
  machinery re-raises these out of `run_forever`; the pending done-callback
  runs (and passes) inside the `finally` clause`s `run_until_complete`,
  which runs `shutdown_handler(bot)` once.
* bot task raising any other `Exception`: the done-callback logs and
  creates a `shutdown_handler(bot)` task; that task`s `sys.exit(1)` raises
  `SystemExit`, which the task machinery re-raises out of `run_forever`, so
  the `finally` clause then runs `shutdown_handler(bot)` a second time. The
  second invocation finds the pending-task set left by the first: empty if
  the first cancellation pass completed inside its budget, otherwise the
  stragglers.
* normal return or `CancelledError`: the done-callback does nothing and
  nothing stops the loop, which keeps running forever. -/
def run_main (flags : CLIFlags) (settings : Settings) (env : ShutdownEnv)
    (rc : RunCase) : RunResult :=
  if flags.version then
    { effects := [.printVersionE, .exitCall 0]
      fate := .mainThreadExit 0
      nonDaemonThreadAlive := false }
  else if flags.reset_settings then
    { effects := [.writeDefaultSettingsE, .printResetNoticeE, .exitCall 0]
      fate := .mainThreadExit 0
      nonDaemonThreadAlive := false }
  else if settings.discord_token = "" then
    { effects := [.readSettingsE, .updateSettingsE, .printMissingTokenE,
        .exitCall 1]
      fate := .mainThreadExit 1
      nonDaemonThreadAlive := false }
  else
    let pre := startupEffects flags settings
    match rc with
    | .runsQuietly =>
        { effects := pre
          fate := .loopForever
          nonDaemonThreadAlive := true }
    | .sigterm =>
        { effects := pre
          fate := .killedBySignal "SIGTERM"
          nonDaemonThreadAlive := true }
    | .sigint =>
        { effects := pre ++ (shutdown_handler env none).effects
          fate := .mainThreadExit 1
          nonDaemonThreadAlive := true }
    | .taskDone .normal =>
        { effects := pre ++ bot_exception_handler .normal
          fate := .loopForever
          nonDaemonThreadAlive := true }
    | .taskDone (.raises .cancelledError) =>
        { effects := pre ++ bot_exception_handler (.raises .cancelledError)
          fate := .loopForever
          nonDaemonThreadAlive := true }
    | .taskDone (.raises .systemExit) =>
        { effects := pre ++ bot_exception_handler (.raises .systemExit)
            ++ (shutdown_handler env none).effects
          fate := .mainThreadExit 1
          nonDaemonThreadAlive := true }
    | .taskDone (.raises .keyboardInterrupt) =>
        { effects := pre ++ bot_exception_handler (.raises .keyboardInterrupt)
            ++ (shutdown_handler env none).effects
          fate := .mainThreadExit 1
          nonDaemonThreadAlive := true }
    | .taskDone (.raises (.otherError n)) =>
        let envAfterFirst : ShutdownEnv :=
          { env with pendingTasks :=
              if 5 < env.cancelDuration then env.pendingTasks else [] }
        { effects := pre ++ bot_exception_handler (.raises (.otherError n))
            ++ (shutdown_handler env none).effects
            ++ (shutdown_handler envAfterFirst none).effects
          fate := .mainThreadExit 1
          nonDaemonThreadAlive := true }

/-- Flags of a plain `python -m ballsdex` run. -/
def okFlags : CLIFlags :=
  { version := false
    config_file := "./config.yml"
    reset_settings := false
    disable_rich := false
    disable_message_content := false
    disable_time_check := false
    skip_tree_sync := false
    debug := false
    dev := false }

/-- Settings with a token present. -/
def okSettings : Settings :=
  { discord_token := "token123", bot_name := "BallsDex" }

/-- Settings whose token is absent (falsy). -/
def noTokenSettings : Settings :=
  { discord_token := "", bot_name := "BallsDex" }

/-- A benign shutdown environment: close and cancellation both finish
inside their budgets, no pending task. -/
def envA : ShutdownEnv :=
  { closeDuration := 1, pendingTasks := [], cancelDuration := 1 }

/-- A shutdown environment whose `bot.close()` overstays the 10-unit drain
budget. -/
def envDrainTimeout : ShutdownEnv :=
  { closeDuration := 11, pendingTasks := [], cancelDuration := 0 }

/-- A shutdown environment whose cancelled tasks overstay the 5-unit
terminate budget. -/
def envCancelTimeout : ShutdownEnv :=
  { closeDuration := 0, pendingTasks := ["presence_task"], cancelDuration := 6 }

/-- Helper: a `shutdown_handler` trace never contains the Tortoise
initialisation effect. -/
theorem initTortoiseE_not_in_shutdown (env : ShutdownEnv) (st : Option String) :
    Eff.initTortoiseE ∉ (shutdown_handler env st).effects := by
  cases st <;> by_cases h : 5 < env.cancelDuration <;>
    simp [shutdown_handler, h]

/-- C1: the claim fails on the code. `main` never installs any OS signal
handler (`SIGTERM` is imported but unused and `installSigHandler` never
occurs in the trace); a `SIGINT` delivered while the loop runs reaches the
shutdown path only through the `finally` clause, with `signal_type=None`,
so the main thread exits with code 1 rather than 0, and a `SIGTERM` kills
the process through its default disposition without running the shutdown
path at all. -/
theorem C1_no_signal_handler_wrong_exit_code :
    ((run_main okFlags okSettings envA .sigint).effects.all
      (fun e => match e with | .installSigHandler _ => false | _ => true)) = true
    ∧ (run_main okFlags okSettings envA .sigint).fate = .mainThreadExit 1
    ∧ ((run_main okFlags okSettings envA .sigterm).effects.all
      (fun e => match e with | .installSigHandler _ => false | _ => true)) = true
    ∧ (run_main okFlags okSettings envA .sigterm).fate = .killedBySignal "SIGTERM"
    ∧ Eff.closeClient ∉ (run_main okFlags okSettings envA .sigterm).effects := by
  decide

/-- C2: the claim fails on the code. There is no idempotence guard: when
the bot task fails with an unexpected exception, the done-callback runs
`shutdown_handler` as a task, whose `sys.exit(1)` aborts `run_forever`, and
the `finally` clause then runs `shutdown_handler` a second time — the
client is closed twice and two cancellation passes are made. -/
theorem C2_shutdown_runs_twice_on_task_failure :
    ((run_main okFlags okSettings envA
        (.taskDone (.raises (.otherError "RuntimeError")))).effects.countP
      (fun e => match e with | .closeClient => true | _ => false)) = 2
    ∧ ((run_main okFlags okSettings envA
        (.taskDone (.raises (.otherError "RuntimeError")))).effects.countP
      (fun e => match e with | .cancelPass _ => true | _ => false)) = 2
    ∧ ((run_main okFlags okSettings envA
        (.taskDone (.raises (.otherError "RuntimeError")))).effects.countP
      (fun e => match e with | .exitCall _ => true | _ => false)) = 2 := by
  decide

/-- C3 counterexample: in a concrete run whose bot task raises a
`RuntimeError`, the done-callback does trigger the coordinated shutdown
(the critical log and the client close are in the trace) and `sys.exit(1)`
unwinds the main thread, yet the process never exits — the interpreter
joins the non-daemon Flask thread, which serves forever — refuting the
claim that the process exit code is 1. -/
theorem C3_process_never_exits_on_task_failure :
    Eff.logE .critical "Main bot task crashed"
        ∈ (run_main okFlags okSettings envA
            (.taskDone (.raises (.otherError "RuntimeError")))).effects
    ∧ Eff.closeClient
        ∈ (run_main okFlags okSettings envA
            (.taskDone (.raises (.otherError "RuntimeError")))).effects
    ∧ (run_main okFlags okSettings envA
        (.taskDone (.raises (.otherError "RuntimeError")))).nonDaemonThreadAlive
        = true
    ∧ (run_main okFlags okSettings envA
        (.taskDone (.raises (.otherError "RuntimeError")))).processTerminates
        = false := by
  decide

/-- C3 amended: when the bot task completes with an `Exception` outside the
deliberate stop/cancel classes, the done-callback logs critically and
triggers the coordinated shutdown, and the main thread unwinds with exit
status 1 via `sys.exit(1)`; the process itself does not terminate, hanging
on the non-daemon Flask thread. -/
theorem C3_task_failure_triggers_shutdown_exit1
    (flags : CLIFlags) (settings : Settings) (env : ShutdownEnv) (n : String)
    (h1 : flags.version = false) (h2 : flags.reset_settings = false)
    (h3 : settings.discord_token ≠ "") :
    (run_main flags settings env (.taskDone (.raises (.otherError n)))).fate
        = .mainThreadExit 1
    ∧ Eff.logE .critical "Main bot task crashed"
        ∈ (run_main flags settings env (.taskDone (.raises (.otherError n)))).effects
    ∧ Eff.closeClient
        ∈ (run_main flags settings env (.taskDone (.raises (.otherError n)))).effects
    ∧ (run_main flags settings env
        (.taskDone (.raises (.otherError n)))).processTerminates = false := by
  refine ⟨?_, ?_, ?_, ?_⟩ <;>
    simp [run_main, h1, h2, h3, startupEffects, bot_exception_handler,
      shutdown_handler, RunResult.processTerminates]

/-- C3 amended witness: a concrete failing run with a `RuntimeError`. -/
theorem C3_task_failure_triggers_shutdown_exit1_witness :
    (run_main okFlags okSettings envA
        (.taskDone (.raises (.otherError "RuntimeError")))).fate
        = .mainThreadExit 1
    ∧ Eff.logE .critical "Main bot task crashed"
        ∈ (run_main okFlags okSettings envA
            (.taskDone (.raises (.otherError "RuntimeError")))).effects
    ∧ Eff.closeClient
        ∈ (run_main okFlags okSettings envA
            (.taskDone (.raises (.otherError "RuntimeError")))).effects
    ∧ (run_main okFlags okSettings envA
        (.taskDone (.raises (.otherError "RuntimeError")))).processTerminates
        = false :=
  C3_task_failure_triggers_shutdown_exit1 okFlags okSettings envA "RuntimeError"
    rfl rfl (by decide)

/-- C4: the claim fails on the code. The Flask thread is created without
`daemon=True`, so it is a non-daemon thread running `app.run` forever;
after the shutdown path has run to completion (its `exitCall` is in the
trace), the interpreter still joins that thread and the process never
terminates. -/
theorem C4_flask_thread_keeps_process_alive :
    Eff.exitCall 1 ∈ (run_main okFlags okSettings envA .sigint).effects
    ∧ Eff.startThread false ∈ (run_main okFlags okSettings envA .sigint).effects
    ∧ (run_main okFlags okSettings envA .sigint).nonDaemonThreadAlive = true
    ∧ (run_main okFlags okSettings envA .sigint).processTerminates = false := by
  decide

/-- C5: a falsy discord token makes `main` print and `sys.exit(1)` before
the Flask thread is started and before any task is created, so the process
really terminates with code 1, no drain needed. -/
theorem C5_missing_token_fail_fast
    (flags : CLIFlags) (settings : Settings) (env : ShutdownEnv) (rc : RunCase)
    (h1 : flags.version = false) (h2 : flags.reset_settings = false)
    (h3 : settings.discord_token = "") :
    (run_main flags settings env rc).fate = .mainThreadExit 1
    ∧ (∀ d, Eff.startThread d ∉ (run_main flags settings env rc).effects)
    ∧ (∀ nm, Eff.createTask nm ∉ (run_main flags settings env rc).effects)
    ∧ (run_main flags settings env rc).processTerminates = true := by
  refine ⟨?_, ?_, ?_, ?_⟩ <;>
    simp [run_main, h1, h2, h3, RunResult.processTerminates]

/-- C5 witness: a concrete run with an empty token. -/
theorem C5_missing_token_fail_fast_witness :
    (run_main okFlags noTokenSettings envA .runsQuietly).fate = .mainThreadExit 1
    ∧ (∀ d, Eff.startThread d ∉ (run_main okFlags noTokenSettings envA .runsQuietly).effects)
    ∧ (∀ nm, Eff.createTask nm ∉ (run_main okFlags noTokenSettings envA .runsQuietly).effects)
    ∧ (run_main okFlags noTokenSettings envA .runsQuietly).processTerminates = true :=
  C5_missing_token_fail_fast okFlags noTokenSettings envA .runsQuietly rfl rfl rfl

/-- C6 counterexample: in a run whose `bot.close()` needs 11 units (past
the 10-unit budget) the whole trace is explicit and contains no log entry
about the drain timeout at any severity — the only log is the pre-drain
info line — refuting the claim that the coordinator logs the violation. -/
theorem C6_drain_timeout_never_logged :
    10 < envDrainTimeout.closeDuration
    ∧ (shutdown_handler envDrainTimeout (some "SIGINT")).effects =
      [.logE .info "Received SIGINT, stopping bot...", .closeClient,
       .cancelPass [], .exitCall 0] := by
  decide

/-- C6 amended: the wait for the client close is bounded by 10 units, and
on overstay the coordinator proceeds — without logging the drain timeout
(every error-severity log in a shutdown trace is the task-cancel timeout
message) — to cancel every registered task and on to the exit call, so
draining never blocks shutdown indefinitely. -/
theorem C6_drain_bounded_proceeds_unlogged
    (env : ShutdownEnv) (st : Option String) (h : 10 < env.closeDuration) :
    (shutdown_handler env st).drainElapsed = 10
    ∧ Eff.cancelPass env.pendingTasks ∈ (shutdown_handler env st).effects
    ∧ Eff.exitCall (if st.isSome then 0 else 1)
        ∈ (shutdown_handler env st).effects
    ∧ ∀ m, Eff.logE .error m ∈ (shutdown_handler env st).effects →
        m = "Timeout while cancelling tasks." := by
  refine ⟨?_, ?_, ?_, ?_⟩
  · simp only [shutdown_handler]
    omega
  · cases st <;> by_cases hc : 5 < env.cancelDuration <;>
      simp [shutdown_handler, hc]
  · cases st <;> by_cases hc : 5 < env.cancelDuration <;>
      simp [shutdown_handler, hc]
  · intro m hm
    cases st <;> by_cases hc : 5 < env.cancelDuration <;>
      simp_all [shutdown_handler, hc]

/-- C6 amended witness: a concrete run overstaying both budgets. -/
theorem C6_drain_bounded_proceeds_unlogged_witness :
    (shutdown_handler ⟨12, ["w1"], 7⟩ none).drainElapsed = 10
    ∧ Eff.cancelPass (ShutdownEnv.mk 12 ["w1"] 7).pendingTasks
        ∈ (shutdown_handler ⟨12, ["w1"], 7⟩ none).effects
    ∧ Eff.exitCall (if (none : Option String).isSome then 0 else 1)
        ∈ (shutdown_handler ⟨12, ["w1"], 7⟩ none).effects
    ∧ ∀ m, Eff.logE .error m ∈ (shutdown_handler ⟨12, ["w1"], 7⟩ none).effects →
        m = "Timeout while cancelling tasks." :=
  C6_drain_bounded_proceeds_unlogged ⟨12, ["w1"], 7⟩ none (by decide)

/-- C7: the wait for cancelled tasks is bounded by 5 units; on overstay the
`TimeoutError` is caught, the violation is logged via `log.error`, and the
exit call is still reached, abandoning the overstaying tasks. -/
theorem C7_terminate_bounded_logged_proceeds
    (env : ShutdownEnv) (st : Option String) (h : 5 < env.cancelDuration) :
    (shutdown_handler env st).terminateElapsed = 5
    ∧ Eff.logE .error "Timeout while cancelling tasks."
        ∈ (shutdown_handler env st).effects
    ∧ Eff.exitCall (if st.isSome then 0 else 1)
        ∈ (shutdown_handler env st).effects := by
  refine ⟨?_, ?_, ?_⟩
  · simp only [shutdown_handler]
    omega
  · cases st <;> simp [shutdown_handler, h]
  · cases st <;> simp [shutdown_handler, h]

/-- C7 witness: a concrete run whose cancelled task overstays the budget. -/
theorem C7_terminate_bounded_logged_proceeds_witness :
    (shutdown_handler envCancelTimeout (some "SIGTERM")).terminateElapsed = 5
    ∧ Eff.logE .error "Timeout while cancelling tasks."
        ∈ (shutdown_handler envCancelTimeout (some "SIGTERM")).effects
    ∧ Eff.exitCall (if (some "SIGTERM").isSome then 0 else 1)
        ∈ (shutdown_handler envCancelTimeout (some "SIGTERM")).effects :=
  C7_terminate_bounded_logged_proceeds envCancelTimeout (some "SIGTERM")
    (by decide)

/-- C8 counterexample: a `CancelledError` delivered to the loop exception
handler is not swallowed — the handler emits a critical log — refuting the
claim that exceptions representing cancellation are swallowed silently. -/
theorem C8_cancelled_error_is_logged_not_swallowed :
    global_exception_handler
        { exception := some .cancelledError,
          message := "task exception was never retrieved" } =
      [.logE .critical
        "Unhandled exception: task exception was never retrieved"]
    ∧ global_exception_handler
        { exception := some .cancelledError,
          message := "task exception was never retrieved" } ≠ [] := by
  decide

/-- C8 amended: the handler never raises and never escalates — it swallows
exactly `KeyboardInterrupt` and `SystemExit`, logs every other delivery
(including `CancelledError` and a missing exception) at critical severity,
and emits nothing but critical log entries. -/
theorem C8_handler_swallows_ki_se_logs_rest (ctx : LoopContext) :
    global_exception_handler ctx =
      (if ctx.exception = some .keyboardInterrupt
          ∨ ctx.exception = some .systemExit
        then []
        else [.logE .critical ("Unhandled exception: " ++ ctx.message)])
    ∧ ∀ e ∈ global_exception_handler ctx, ∃ m, e = Eff.logE .critical m := by
  obtain ⟨exc, msg⟩ := ctx
  cases exc with
  | none => simp [global_exception_handler]
  | some k => cases k <;> simp [global_exception_handler]

/-- C9 counterexample: when the bot task completes with `SystemExit`, the
done-callback itself is inert, but the loop does not keep running — the
task machinery re-raises the exception out of `run_forever` and the
`finally` clause runs the shutdown path — refuting the claim that no
shutdown is triggered and the loop runs indefinitely for that outcome. -/
theorem C9_system_exit_outcome_stops_loop :
    bot_exception_handler (.raises .systemExit) = []
    ∧ (run_main okFlags okSettings envA (.taskDone (.raises .systemExit))).fate
        = .mainThreadExit 1
    ∧ Eff.closeClient
        ∈ (run_main okFlags okSettings envA (.taskDone (.raises .systemExit))).effects := by
  decide

/-- C9 amended: the done-callback performs no action for normal completion
and for the `SystemExit` / `KeyboardInterrupt` / `CancelledError` classes;
for normal completion and `CancelledError` nothing stops the loop (no
shutdown, no log, the loop keeps running forever), while `SystemExit` and
`KeyboardInterrupt` abort `run_forever` so the `finally`-clause shutdown
runs. -/
theorem C9_callback_inert_loop_behaviour
    (flags : CLIFlags) (settings : Settings) (env : ShutdownEnv)
    (h1 : flags.version = false) (h2 : flags.reset_settings = false)
    (h3 : settings.discord_token ≠ "") :
    bot_exception_handler .normal = []
    ∧ bot_exception_handler (.raises .cancelledError) = []
    ∧ bot_exception_handler (.raises .systemExit) = []
    ∧ bot_exception_handler (.raises .keyboardInterrupt) = []
    ∧ (run_main flags settings env (.taskDone .normal)).fate = .loopForever
    ∧ (run_main flags settings env (.taskDone (.raises .cancelledError))).fate
        = .loopForever
    ∧ Eff.closeClient
        ∉ (run_main flags settings env (.taskDone .normal)).effects
    ∧ (∀ m, Eff.logE .critical m
        ∉ (run_main flags settings env (.taskDone .normal)).effects)
    ∧ Eff.closeClient
        ∉ (run_main flags settings env (.taskDone (.raises .cancelledError))).effects
    ∧ (run_main flags settings env (.taskDone (.raises .systemExit))).fate
        = .mainThreadExit 1
    ∧ (run_main flags settings env (.taskDone (.raises .keyboardInterrupt))).fate
        = .mainThreadExit 1 := by
  refine ⟨rfl, rfl, rfl, rfl, ?_, ?_, ?_, ?_, ?_, ?_, ?_⟩ <;>
    simp [run_main, h1, h2, h3, startupEffects, bot_exception_handler]

/-- C9 amended witness: the concrete benign run. -/
theorem C9_callback_inert_loop_behaviour_witness :
    bot_exception_handler .normal = []
    ∧ bot_exception_handler (.raises .cancelledError) = []
    ∧ bot_exception_handler (.raises .systemExit) = []
    ∧ bot_exception_handler (.raises .keyboardInterrupt) = []
    ∧ (run_main okFlags okSettings envA (.taskDone .normal)).fate = .loopForever
    ∧ (run_main okFlags okSettings envA (.taskDone (.raises .cancelledError))).fate
        = .loopForever
    ∧ Eff.closeClient
        ∉ (run_main okFlags okSettings envA (.taskDone .normal)).effects
    ∧ (∀ m, Eff.logE .critical m
        ∉ (run_main okFlags okSettings envA (.taskDone .normal)).effects)
    ∧ Eff.closeClient
        ∉ (run_main okFlags okSettings envA (.taskDone (.raises .cancelledError))).effects
    ∧ (run_main okFlags okSettings envA (.taskDone (.raises .systemExit))).fate
        = .mainThreadExit 1
    ∧ (run_main okFlags okSettings envA (.taskDone (.raises .keyboardInterrupt))).fate
        = .mainThreadExit 1 :=
  C9_callback_inert_loop_behaviour okFlags okSettings envA rfl rfl (by decide)

/-- C10: no run of `main` ever performs the Tortoise initialisation effect
(`init_tortoise` is defined but never called), while the connection string
is read into `TORTOISE_ORM` at import time. -/
theorem C10_tortoise_never_initialised
    (flags : CLIFlags) (settings : Settings) (env : ShutdownEnv) (rc : RunCase)
    (dbUrl : Option String) :
    Eff.initTortoiseE ∉ (run_main flags settings env rc).effects
    ∧ (TORTOISE_ORM dbUrl).defaultConnection = dbUrl := by
  refine ⟨?_, rfl⟩
  by_cases hv : flags.version
  · simp [run_main, hv]
  by_cases hr : flags.reset_settings
  · simp [run_main, hv, hr]
  by_cases ht : settings.discord_token = ""
  · simp [run_main, hv, hr, ht]
  cases rc with
  | runsQuietly => simp [run_main, hv, hr, ht, startupEffects]
  | sigterm => simp [run_main, hv, hr, ht, startupEffects]
  | sigint =>
      simp [run_main, hv, hr, ht, startupEffects,
        initTortoiseE_not_in_shutdown env none]
  | taskDone outcome =>
      cases outcome with
      | normal => simp [run_main, hv, hr, ht, startupEffects, bot_exception_handler]
      | raises e =>
          cases e with
          | systemExit =>
              simp [run_main, hv, hr, ht, startupEffects, bot_exception_handler,
                initTortoiseE_not_in_shutdown env none]
          | keyboardInterrupt =>
              simp [run_main, hv, hr, ht, startupEffects, bot_exception_handler,
                initTortoiseE_not_in_shutdown env none]
          | cancelledError =>
              simp [run_main, hv, hr, ht, startupEffects, bot_exception_handler]
          | otherError n =>
              simp [run_main, hv, hr, ht, startupEffects, bot_exception_handler,
                initTortoiseE_not_in_shutdown env none,
                initTortoiseE_not_in_shutdown
                  { env with pendingTasks :=
                      if 5 < env.cancelDuration then env.pendingTasks else [] }
                  none]

end BallsdexMain
